import Mathlib

/-!
# Verification of the job-orchestration subsystem of `trp1-ai-artist-zoe`

A shallow embedding of the repository's music/video/image generation
orchestration:

* `src/ai_content/cli/main.py` — the `_generate_music` / `_generate_video`
  flows (duplicate check, provider invocation, job tracking);
* `src/ai_content/providers/google/lyria.py` — the streaming (Lyria) music
  provider;
* `src/ai_content/providers/aimlapi/minimax.py` — the submit/poll/download
  (MiniMax) music provider;
* `src/ai_content/providers/google/imagen.py` — the Imagen image provider;
* the Job Tracker state machine (its module `ai_content/core/job_tracker.py`
  is not among the provided sources; it is modelled from the specification,
  see `validTransition` and the tracker operations below).

External effects (HTTP calls, the streaming session, the filesystem, the
lazily-built vendor client) are modelled by environment records whose fields
say what each external step would do: `Except.ok v` for a normal return and
`Except.error msg` for a raised Python exception whose `str()` is `msg`
(a Python exception's `str()` may be the empty string, e.g. a bare
`TimeoutError()`).  Byte strings are `List Nat`; a written file is a pair of
path and content.
-/

namespace AiContent

/-- Python truthiness of an optional string: `None` and `""` are falsy. -/
def truthyStr : Option String → Bool
  | none => false
  | some s => !(s == "")

/-- Python `x or y` on optional strings: `x` if truthy, else `y`. -/
def pyOrStr (a b : Option String) : Option String :=
  if truthyStr a then a else b

/-- `needle` occurs at the start of `hay` (character lists). -/
def startsWithChars : List Char → List Char → Bool
  | [], _ => true
  | _ :: _, [] => false
  | a :: as, b :: bs => a == b && startsWithChars as bs

/-- `needle` occurs somewhere inside `hay` (character lists). -/
def hasInfixChars (needle : List Char) : List Char → Bool
  | [] => startsWithChars needle []
  | b :: bs => startsWithChars needle (b :: bs) || hasInfixChars needle bs

/-- Python's `needle in hay` substring test on strings. -/
def strContains (hay needle : String) : Bool :=
  hasInfixChars needle.data hay.data

/-- `GenerationResult` (`src/ai_content/core/result.py`, as constructed by the
providers): outcome of one `generate` call.  Bytes are `List Nat`. -/
structure GenerationResult where
  success : Bool
  provider : String
  contentType : String
  filePath : Option String := none
  data : Option (List Nat) := none
  generationId : Option String := none
  error : Option String := none
  deriving Repr, DecidableEq

/-- Job lifecycle states (`JobStatus` in `ai_content/core/job_tracker.py`,
named by the spec and by their string values used throughout `cli/main.py`). -/
inductive JobStatus where
  | queued
  | processing
  | completed
  | failed
  | downloaded
  deriving Repr, DecidableEq, Fintype

/-- A tracked job (the fields of the persisted Job record that the verified
claims depend on). -/
structure Job where
  id : String
  provider : String := ""
  contentType : String := ""
  prompt : String := ""
  status : JobStatus
  outputPath : Option String := none
  deriving Repr, DecidableEq

/-- A mutating call issued to the Job Tracker by the orchestrator. -/
inductive TrackerOp where
  | createJob (id : String) (provider : String) (contentType : String) (prompt : String)
  | updateStatus (id : String) (status : JobStatus) (outputPath : Option String)
  deriving Repr, DecidableEq

/-- `result.error and "timeout" in result.error.lower()`
(`cli/main.py` line 222). -/
def errorMentionsTimeout : Option String → Bool
  | none => false
  | some e => !(e == "") && strContains e.toLower "timeout"

/-- The job-tracking phase of `_generate_music` (`cli/main.py` lines 201-225):
the list of tracker calls issued for a provider result.  Python's
`if result.generation_id:` is truthiness, so an absent or empty id issues no
calls; otherwise a `create_job` followed by exactly one `update_status` whose
new status is mapped from the result. -/
def trackingOps (provider prompt : String) (r : GenerationResult) : List TrackerOp :=
  if truthyStr r.generationId then
    let gid := r.generationId.getD ""
    let upd :=
      if r.success then
        TrackerOp.updateStatus gid
          (if r.filePath.isSome then JobStatus.downloaded else JobStatus.completed)
          r.filePath
      else if errorMentionsTimeout r.error then
        TrackerOp.updateStatus gid JobStatus.processing none
      else
        TrackerOp.updateStatus gid JobStatus.failed none
    [TrackerOp.createJob gid provider "music" prompt, upd]
  else
    []

/-- Modelled from the spec: the Job Tracker state machine of §4.4
(`ai_content/core/job_tracker.py` is not among the provided sources).
`QUEUED → PROCESSING → {COMPLETED, FAILED}`; `COMPLETED → DOWNLOADED`;
`FAILED` and `DOWNLOADED` are terminal. -/
def validTransition : JobStatus → JobStatus → Bool
  | JobStatus.queued, JobStatus.processing => true
  | JobStatus.queued, JobStatus.completed => true
  | JobStatus.queued, JobStatus.failed => true
  | JobStatus.processing, JobStatus.completed => true
  | JobStatus.processing, JobStatus.failed => true
  | JobStatus.completed, JobStatus.downloaded => true
  | _, _ => false

/-- Errors raised by the Job Tracker (spec §7 taxonomy). -/
inductive TrackerError where
  | notFound
  | duplicateId
  | stateTransition
  deriving Repr, DecidableEq

/-- The tracker's backing store is a list of Jobs; lookup by id. -/
def findJob (st : List Job) (id : String) : Option Job :=
  st.find? (fun j => j.id == id)

/-- Modelled from the spec: `update_status(id, new_status, output_path?)`
validates the transition against the state table and persists; updating a
non-existent id fails with `NotFoundError`, an invalid transition fails with
`StateTransitionError` (and, the call having failed, the store is unchanged —
encoded here by returning `Except.error` without a new store). -/
def update_status (st : List Job) (id : String) (new : JobStatus)
    (outputPath : Option String) : Except TrackerError (List Job) :=
  match findJob st id with
  | none => Except.error TrackerError.notFound
  | some j =>
    if validTransition j.status new then
      Except.ok (st.map (fun k =>
        if k.id == id then
          { k with status := new,
                   outputPath := if outputPath.isSome then outputPath else k.outputPath }
        else k))
    else
      Except.error TrackerError.stateTransition

/-- Modelled from the spec: `create_job` inserts a new Job in `QUEUED` state;
fails with `DuplicateIdError` if the generation id already exists. -/
def create_job (st : List Job) (id provider contentType prompt : String) :
    Except TrackerError (List Job) :=
  match findJob st id with
  | some _ => Except.error TrackerError.duplicateId
  | none => Except.ok (st ++
      [{ id := id, provider := provider, contentType := contentType,
         prompt := prompt, status := JobStatus.queued }])

/-- Apply one orchestrator-issued tracker call to the store. -/
def applyOp (st : List Job) : TrackerOp → Except TrackerError (List Job)
  | TrackerOp.createJob id provider ct prompt => create_job st id provider ct prompt
  | TrackerOp.updateStatus id s p => update_status st id s p

/-- Apply a sequence of tracker calls, stopping at the first error. -/
def applyOps (st : List Job) : List TrackerOp → Except TrackerError (List Job)
  | [] => Except.ok st
  | op :: rest =>
    match applyOp st op with
    | Except.error e => Except.error e
    | Except.ok st' => applyOps st' rest

/-- One observable step of a CLI generation flow. -/
inductive FlowStep where
  | findDuplicate
  | exitCode (n : Nat)
  | resolveProvider
  | providerGenerate
  | trackerOp (op : TrackerOp)
  deriving Repr, DecidableEq

/-- Environment of the `_generate_music` flow: what the tracker's
`find_duplicate` returns, whether the provider name resolves, and the
`GenerationResult` the provider would return. -/
structure MusicFlowEnv where
  dup : Option Job
  providerKnown : Bool
  result : GenerationResult
  deriving Repr, DecidableEq

/-- The part of `_generate_music` after the duplicate check
(`cli/main.py` lines 168-227): resolve the provider (exit 1 if unknown),
invoke `generate`, then issue the tracking calls. -/
def musicFlowRest (provider prompt : String) (env : MusicFlowEnv) : List FlowStep :=
  FlowStep.resolveProvider ::
  (if !env.providerKnown then
    [FlowStep.exitCode 1]
  else
    FlowStep.providerGenerate ::
      (trackingOps provider prompt env.result).map FlowStep.trackerOp)

/-- The observable trace of `_generate_music` (`cli/main.py` lines 136-227):
unless `force` is set, `find_duplicate` is consulted first; an existing job in
COMPLETED/DOWNLOADED or QUEUED/PROCESSING state is reported and the flow exits
with code 0; a FAILED (or absent) duplicate lets generation proceed. -/
def musicFlowTrace (force : Bool) (provider prompt : String)
    (env : MusicFlowEnv) : List FlowStep :=
  if force then
    musicFlowRest provider prompt env
  else
    FlowStep.findDuplicate ::
    (match env.dup with
     | some existing =>
       if existing.status == JobStatus.completed
           || existing.status == JobStatus.downloaded then
         [FlowStep.exitCode 0]
       else if existing.status == JobStatus.queued
           || existing.status == JobStatus.processing then
         [FlowStep.exitCode 0]
       else
         musicFlowRest provider prompt env
     | none => musicFlowRest provider prompt env)

/-- Environment of the `_generate_video` flow. -/
structure VideoFlowEnv where
  providerKnown : Bool
  deriving Repr, DecidableEq

/-- One item arriving on the Lyria streaming session's receive path
(`lyria.py` `receive_audio`, lines 107-124): a message whose
`server_content.audio_chunks` carry optional byte payloads, or a transport
exception raised while iterating `session.receive()`. -/
inductive StreamItem where
  | msg (chunks : List (Option (List Nat)))
  | err (e : String)
  deriving Repr, DecidableEq

/-- The chunks collected by `receive_audio` (`lyria.py` lines 107-124) from
the items the session delivered, in receipt order: each message's chunks with
truthy (present, non-empty) data are appended; an exception inside the loop
is caught and logged (`except Exception`), silently ending collection. -/
def receiveChunks : List StreamItem → List (List Nat)
  | [] => []
  | StreamItem.err _ :: _ => []
  | StreamItem.msg cs :: rest =>
    cs.filterMap (fun c =>
      match c with
      | some d => if d.isEmpty then none else some d
      | none => none) ++ receiveChunks rest

/-- Environment of one `GoogleLyriaProvider.generate` call: what each
external step would do.  `getClient` covers the pre-`try` part (the
`google.genai` import and `self._get_client()`, `lyria.py` lines 93-95, which
can raise `ProviderError` or `AuthenticationError`); `connect`, `setPrompts`,
`setConfig`, `play`, `stop` are the session-control calls inside the `try`;
`stream` is what the concurrent receive path saw; `waveWrite` is the
`wave.open(...)` write of the WAV file (`lyria.py` lines 198-203). -/
structure LyriaEnv where
  getClient : Except String Unit
  connect : Except String Unit
  setPrompts : Except String Unit
  setConfig : Except String Unit
  play : Except String Unit
  stop : Except String Unit
  stream : List StreamItem
  waveWrite : Except String Unit
  timestamp : String

/-- The session-control part of `lyria.py` lines 127-163: each step in order;
the first exception aborts the session, otherwise the chunks gathered by the
receive task are returned. -/
def lyriaSession (env : LyriaEnv) : Except String (List (List Nat)) :=
  match env.connect with
  | Except.error e => Except.error e
  | Except.ok _ =>
    match env.setPrompts with
    | Except.error e => Except.error e
    | Except.ok _ =>
      match env.setConfig with
      | Except.error e => Except.error e
      | Except.ok _ =>
        match env.play with
        | Except.error e => Except.error e
        | Except.ok _ =>
          match env.stop with
          | Except.error e => Except.error e
          | Except.ok _ => Except.ok (receiveChunks env.stream)

/-- Little-endian 16-bit encoding of a number as two bytes. -/
def le16 (n : Nat) : List Nat :=
  [n % 256, n / 256 % 256]

/-- Little-endian 32-bit encoding of a number as four bytes. -/
def le32 (n : Nat) : List Nat :=
  [n % 256, n / 256 % 256, n / 65536 % 256, n / 16777216 % 256]

/-- The RIFF/WAVE header that Python's `wave` module writes for
`setnchannels`/`setsampwidth`/`setframerate` followed by `writeframes` of
`dataLen` bytes: `"RIFF"`, riff size, `"WAVE"`, `"fmt "` chunk (PCM format
tag, channel count, sample rate, byte rate, block align, bits per sample),
then the `"data"` chunk header. -/
def wavHeader (channels width rate dataLen : Nat) : List Nat :=
  [82, 73, 70, 70] ++ le32 (36 + dataLen) ++ [87, 65, 86, 69] ++
  [102, 109, 116, 32] ++ le32 16 ++ le16 1 ++ le16 channels ++ le32 rate ++
  le32 (rate * channels * width) ++ le16 (channels * width) ++
  le16 (width * 8) ++ [100, 97, 116, 97] ++ le32 dataLen

/-- The output path chosen by `lyria.py` lines 186-192: the caller's
`output_path` if given, otherwise a timestamped default. -/
def lyriaOutputPath (outputPath : Option String) (timestamp : String) : String :=
  match outputPath with
  | some p => p
  | none => "output/music/lyria_" ++ timestamp ++ ".wav"

/-- `GoogleLyriaProvider.generate` (`lyria.py` lines 75-223).  The returned
value is `Except.error e` when an exception `e` escapes the call (only the
pre-`try` client acquisition can do that), else the `GenerationResult`
together with the list of files written.  Inside the `try`: a session-control
exception yields a failed result with no data and no file; zero captured
chunks yield the `"No audio data received"` failure; otherwise the chunks are
concatenated, written as a WAV file (falling back to the raw bytes if the
`wave` write raises, lines 204-207), and a successful result carrying both
`file_path` and `data` is returned. -/
def lyriaGenerate (env : LyriaEnv) (outputPath : Option String) :
    Except String (GenerationResult × List (String × List Nat)) :=
  match env.getClient with
  | Except.error e => Except.error e
  | Except.ok _ =>
    match lyriaSession env with
    | Except.error e =>
      Except.ok ({ success := false, provider := "lyria", contentType := "music",
                   error := some e }, [])
    | Except.ok chunks =>
      if chunks.isEmpty then
        Except.ok ({ success := false, provider := "lyria", contentType := "music",
                     error := some "No audio data received" }, [])
      else
        let audioData := chunks.flatten
        let fp := lyriaOutputPath outputPath env.timestamp
        let fileBytes :=
          match env.waveWrite with
          | Except.ok _ => wavHeader 2 2 44100 audioData.length ++ audioData
          | Except.error _ => audioData
        Except.ok ({ success := true, provider := "lyria", contentType := "music",
                     filePath := some fp, data := some audioData },
                   [(fp, fileBytes)])

/-- A Python value as seen by the duck-typed status-dict decoding in
`minimax.py` (`None`, strings, dicts, lists). -/
inductive PyVal where
  | pnone
  | pstr (s : String)
  | pdict (entries : List (String × PyVal))
  | plist (xs : List PyVal)

/-- Dict lookup: `some v` when the key is present (`k in d`), `none`
otherwise. -/
def dictGet (d : List (String × PyVal)) (k : String) : Option PyVal :=
  match d.find? (fun kv => kv.1 == k) with
  | some kv => some kv.2
  | none => none

/-- Python truthiness of a value: `None`, `""`, `{}` and `[]` are falsy. -/
def pyTruthy : PyVal → Bool
  | PyVal.pnone => false
  | PyVal.pstr s => !(s == "")
  | PyVal.pdict d => !d.isEmpty
  | PyVal.plist l => !l.isEmpty

/-- Python `x or y`: `x` if truthy, else `y`. -/
def pyOr (a b : PyVal) : PyVal :=
  if pyTruthy a then a else b

/-- Python `v.get(k)`: returns the entry (or `None`) when `v` is a dict,
raises `AttributeError` otherwise. -/
def attrGet (v : PyVal) (k : String) : Except String PyVal :=
  match v with
  | PyVal.pdict d => Except.ok ((dictGet d k).getD PyVal.pnone)
  | _ => Except.error "AttributeError: object has no attribute get"

/-- `_extract_audio_url`, `"result"` branch (`minimax.py` lines 185-188):
`status["result"]`, when a dict, yields `result.get("audio_url") or
result.get("url")`; otherwise the function returns `None`. -/
def extractFromResult (status : List (String × PyVal)) : PyVal :=
  match dictGet status "result" with
  | some (PyVal.pdict d) =>
    pyOr ((dictGet d "audio_url").getD PyVal.pnone) ((dictGet d "url").getD PyVal.pnone)
  | _ => PyVal.pnone

/-- `_extract_audio_url`, `"output"` branch (`minimax.py` lines 177-184):
a string is returned as-is; a dict yields `get("audio_url") or get("url")`;
a non-empty list indexes its head and calls `.get` on it (raising
`AttributeError` if the head is not a dict); anything else falls through to
the `"result"` branch. -/
def extractFromOutput (status : List (String × PyVal)) : Except String PyVal :=
  match dictGet status "output" with
  | some out =>
    match out with
    | PyVal.pstr s => Except.ok (PyVal.pstr s)
    | PyVal.pdict d =>
      Except.ok (pyOr ((dictGet d "audio_url").getD PyVal.pnone)
        ((dictGet d "url").getD PyVal.pnone))
    | PyVal.plist (x :: _) =>
      match attrGet x "audio_url" with
      | Except.error e => Except.error e
      | Except.ok a =>
        match attrGet x "url" with
        | Except.error e => Except.error e
        | Except.ok b => Except.ok (pyOr a b)
    | _ => Except.ok (extractFromResult status)
  | none => Except.ok (extractFromResult status)

/-- `_extract_audio_url`, `"audio_url"`/`"url"` keys (`minimax.py` lines
172-176): either key present returns its raw value. -/
def extractAfterAudioFile (status : List (String × PyVal)) : Except String PyVal :=
  match dictGet status "audio_url" with
  | some v => Except.ok v
  | none =>
    match dictGet status "url" with
    | some v => Except.ok v
    | none => extractFromOutput status

/-- `MiniMaxMusicProvider._extract_audio_url` (`minimax.py` lines 162-189):
the `"audio_file"` key, when a dict, yields its `"url"`; otherwise the other
response shapes are tried in order. -/
def extractAudioUrl (status : List (String × PyVal)) : Except String PyVal :=
  match dictGet status "audio_file" with
  | some (PyVal.pdict d) => Except.ok ((dictGet d "url").getD PyVal.pnone)
  | some _ => extractAfterAudioFile status
  | none => extractAfterAudioFile status

/-- The submit response's identifier fields (`result.get("id")`,
`result.get("generation_id")`, `minimax.py` line 91).  The vendor's JSON ids
are modelled as strings; an absent key is `none`. -/
structure SubmitResp where
  id : Option String := none
  generationId : Option String := none

/-- Environment of one `MiniMaxMusicProvider.generate` call: what each
external step (all inside the `try` of `minimax.py` lines 73-155) would do.
`submit` is `client.submit_generation`; `waitForCompletion` is the polling
loop (a timeout there raises, e.g. an exception whose `str()` may be empty);
`download` is `client.download_file`; `write` is the local file write. -/
structure MiniMaxEnv where
  submit : Except String SubmitResp
  waitForCompletion : Except String (List (String × PyVal))
  download : Except String (List Nat)
  write : Except String Unit
  timestamp : String

/-- The output path chosen by `minimax.py` lines 122-127. -/
def minimaxOutputPath (outputPath : Option String) (timestamp : String) : String :=
  match outputPath with
  | some p => p
  | none => "output/music/minimax_" ++ timestamp ++ ".mp3"

/-- The body of the `try` block of `MiniMaxMusicProvider.generate`
(`minimax.py` lines 73-146): submit, extract the generation id (failing with
`"No generation ID in response"` when it is absent or falsy), poll to
completion, extract the audio URL (failing with `"No audio URL in response"`
— the only failure that still carries the `generation_id`), download and
save.  `Except.error e` is an exception propagating to the `except` clause. -/
def minimaxBody (env : MiniMaxEnv) (outputPath : Option String) :
    Except String (GenerationResult × List (String × List Nat)) :=
  match env.submit with
  | Except.error e => Except.error e
  | Except.ok resp =>
    let genId := pyOrStr resp.id resp.generationId
    if !(truthyStr genId) then
      Except.ok ({ success := false, provider := "minimax", contentType := "music",
                   error := some "No generation ID in response" }, [])
    else
      match env.waitForCompletion with
      | Except.error e => Except.error e
      | Except.ok status =>
        match extractAudioUrl status with
        | Except.error e => Except.error e
        | Except.ok audioUrl =>
          if !(pyTruthy audioUrl) then
            Except.ok ({ success := false, provider := "minimax", contentType := "music",
                         error := some "No audio URL in response",
                         generationId := genId }, [])
          else
            match env.download with
            | Except.error e => Except.error e
            | Except.ok audioData =>
              match env.write with
              | Except.error e => Except.error e
              | Except.ok _ =>
                let fp := minimaxOutputPath outputPath env.timestamp
                Except.ok ({ success := true, provider := "minimax",
                             contentType := "music", filePath := some fp,
                             data := some audioData, generationId := genId },
                           [(fp, audioData)])

/-- `MiniMaxMusicProvider.generate` (`minimax.py` lines 47-155): the whole
body sits inside `try`/`except Exception`, so every raised exception becomes
a failed `GenerationResult` with `error = str(e)` (and no `generation_id`). -/
def minimaxGenerate (env : MiniMaxEnv) (outputPath : Option String) :
    Except String (GenerationResult × List (String × List Nat)) :=
  match minimaxBody env outputPath with
  | Except.ok x => Except.ok x
  | Except.error e =>
    Except.ok ({ success := false, provider := "minimax", contentType := "music",
                 error := some e }, [])

/-- Environment of one `GoogleImagenProvider.generate` call.  `getClient`
covers the pre-`try` client acquisition (`imagen.py` lines 82-84, which can
raise `AuthenticationError` or `ProviderError`); `geminiParts` is the Gemini
response's candidate parts (each `some d` is a part with truthy
`inline_data` carrying bytes `d`); `imagenImages` is `generated_images`;
`write` is the local file write (inside the `try`). -/
structure ImagenEnv where
  getClient : Except String Unit
  geminiParts : Except String (List (Option (List Nat)))
  imagenImages : Except String (List (List Nat))
  write : Except String Unit
  timestamp : String

/-- The output path chosen by `imagen.py` lines 143-148. -/
def imagenOutputPath (outputPath : Option String) (timestamp : String) : String :=
  match outputPath with
  | some p => p
  | none => "output/image/imagen_" ++ timestamp ++ ".png"

/-- The save step of `imagen.py` lines 142-166 (inside the `try`): write the
bytes and return a successful result carrying both `file_path` and `data`. -/
def imagenSave (env : ImagenEnv) (outputPath : Option String) (imageData : List Nat) :
    Except String (GenerationResult × List (String × List Nat)) :=
  match env.write with
  | Except.error e => Except.error e
  | Except.ok _ =>
    Except.ok ({ success := true, provider := "imagen", contentType := "image",
                 filePath := some (imagenOutputPath outputPath env.timestamp),
                 data := some imageData },
               [(imagenOutputPath outputPath env.timestamp, imageData)])

/-- The body of the `try` block of `GoogleImagenProvider.generate`
(`imagen.py` lines 96-166).  Gemini branch: the first part with truthy
`inline_data` supplies the bytes, failing with `"No image in Gemini
response"` when none does or the bytes are falsy.  Imagen branch: an empty
`generated_images` fails with `"No images generated"`, else the first
image's bytes are used. -/
def imagenBody (env : ImagenEnv) (useGemini : Bool) (outputPath : Option String) :
    Except String (GenerationResult × List (String × List Nat)) :=
  if useGemini then
    match env.geminiParts with
    | Except.error e => Except.error e
    | Except.ok parts =>
      match parts.findSome? (fun x => x) with
      | none =>
        Except.ok ({ success := false, provider := "imagen", contentType := "image",
                     error := some "No image in Gemini response" }, [])
      | some d =>
        if d.isEmpty then
          Except.ok ({ success := false, provider := "imagen", contentType := "image",
                       error := some "No image in Gemini response" }, [])
        else
          imagenSave env outputPath d
  else
    match env.imagenImages with
    | Except.error e => Except.error e
    | Except.ok images =>
      match images with
      | [] =>
        Except.ok ({ success := false, provider := "imagen", contentType := "image",
                     error := some "No images generated" }, [])
      | d :: _ => imagenSave env outputPath d

/-- `GoogleImagenProvider.generate` (`imagen.py` lines 63-175): the client
acquisition precedes the `try` (its exceptions escape); inside the `try`,
every raised exception becomes a failed `GenerationResult` with
`error = str(e)`. -/
def imagenGenerate (env : ImagenEnv) (useGemini : Bool) (outputPath : Option String) :
    Except String (GenerationResult × List (String × List Nat)) :=
  match env.getClient with
  | Except.error e => Except.error e
  | Except.ok _ =>
    match imagenBody env useGemini outputPath with
    | Except.ok x => Except.ok x
    | Except.error e =>
      Except.ok ({ success := false, provider := "imagen", contentType := "image",
                   error := some e }, [])

/-- `Except.error` branches of an environment field carry a non-empty
exception message. -/
def exceptMsgNonempty {α : Type} : Except String α → Bool
  | Except.error s => !(s == "")
  | Except.ok _ => true

/-- All exceptions the MiniMax environment can raise have a non-empty
`str()`. -/
def minimaxEnvMsgsNonempty (env : MiniMaxEnv) : Bool :=
  exceptMsgNonempty env.submit && exceptMsgNonempty env.waitForCompletion &&
  exceptMsgNonempty env.download && exceptMsgNonempty env.write

/-- All exceptions the Lyria session-control path can raise have a non-empty
`str()`. -/
def lyriaEnvMsgsNonempty (env : LyriaEnv) : Bool :=
  exceptMsgNonempty env.connect && exceptMsgNonempty env.setPrompts &&
  exceptMsgNonempty env.setConfig && exceptMsgNonempty env.play &&
  exceptMsgNonempty env.stop

/-- All exceptions the Imagen `try` body can raise have a non-empty
`str()`. -/
def imagenEnvMsgsNonempty (env : ImagenEnv) : Bool :=
  exceptMsgNonempty env.geminiParts && exceptMsgNonempty env.imagenImages &&
  exceptMsgNonempty env.write

/-- The observable trace of `_generate_video` (`cli/main.py` lines 257-302):
resolve the provider (exit 1 if unknown) and invoke `generate`.  The flow has
no `force` flag, consults no tracker, and creates no job. -/
def videoFlowTrace (env : VideoFlowEnv) : List FlowStep :=
  FlowStep.resolveProvider ::
  (if !env.providerKnown then [FlowStep.exitCode 1] else [FlowStep.providerGenerate])

end AiContent

namespace AiContent

/-- **C1.** In the music generation flow, whenever the provider's result
carries a generation id, the orchestrator creates a Job and then issues
exactly one status update determined by the result: success with a file path
→ DOWNLOADED with that output path; success without a file path → COMPLETED;
failure whose error mentions "timeout" case-insensitively → PROCESSING;
any other failure → FAILED. -/
theorem generate_music_status_mapping (provider prompt : String)
    (r : GenerationResult) (gid : String)
    (hgid : r.generationId = some gid) (hne : gid ≠ "") :
    ∃ st p, trackingOps provider prompt r =
        [TrackerOp.createJob gid provider "music" prompt,
         TrackerOp.updateStatus gid st p] ∧
      (r.success = true → r.filePath.isSome → st = JobStatus.downloaded ∧ p = r.filePath) ∧
      (r.success = true → r.filePath = none → st = JobStatus.completed ∧ p = none) ∧
      (r.success = false → errorMentionsTimeout r.error = true →
        st = JobStatus.processing ∧ p = none) ∧
      (r.success = false → errorMentionsTimeout r.error = false →
        st = JobStatus.failed ∧ p = none) := by
  cases hsucc : r.success with
  | true =>
    cases hfp : r.filePath with
    | none =>
      refine ⟨JobStatus.completed, none, ?_, ?_, ?_, ?_, ?_⟩ <;>
        simp [trackingOps, truthyStr, hne, hgid, hsucc, hfp]
    | some f =>
      refine ⟨JobStatus.downloaded, some f, ?_, ?_, ?_, ?_, ?_⟩ <;>
        simp [trackingOps, truthyStr, hne, hgid, hsucc, hfp]
  | false =>
    cases htime : errorMentionsTimeout r.error with
    | true =>
      refine ⟨JobStatus.processing, none, ?_, ?_, ?_, ?_, ?_⟩ <;>
        simp [trackingOps, truthyStr, hne, hgid, hsucc, htime]
    | false =>
      refine ⟨JobStatus.failed, none, ?_, ?_, ?_, ?_, ?_⟩ <;>
        simp [trackingOps, truthyStr, hne, hgid, hsucc, htime]

/-- Witness for `generate_music_status_mapping` at a concrete successful
result with a file path. -/
theorem generate_music_status_mapping_witness :
    ∃ st p, trackingOps "minimax" "lofi beat"
        { success := true, provider := "minimax", contentType := "music",
          filePath := some "out.mp3", generationId := some "abc123" } =
        [TrackerOp.createJob "abc123" "minimax" "music" "lofi beat",
         TrackerOp.updateStatus "abc123" st p] ∧
      (true = true → (some "out.mp3" : Option String).isSome →
        st = JobStatus.downloaded ∧ p = some "out.mp3") ∧
      (true = true → (some "out.mp3" : Option String) = none →
        st = JobStatus.completed ∧ p = none) ∧
      (true = false → errorMentionsTimeout none = true →
        st = JobStatus.processing ∧ p = none) ∧
      (true = false → errorMentionsTimeout none = false →
        st = JobStatus.failed ∧ p = none) := by
  have h := generate_music_status_mapping "minimax" "lofi beat"
    { success := true, provider := "minimax", contentType := "music",
      filePath := some "out.mp3", generationId := some "abc123" }
    "abc123" rfl (by decide)
  simpa using h

/-- **C2.** For every tracked job, `update_status` accepts a transition
exactly when it is one of QUEUED→PROCESSING, QUEUED→COMPLETED, QUEUED→FAILED,
PROCESSING→COMPLETED, PROCESSING→FAILED, COMPLETED→DOWNLOADED; any other
attempted transition — in particular any transition out of FAILED or
DOWNLOADED, and QUEUED→DOWNLOADED as issued by the music flow on a freshly
created job — raises `StateTransitionError` (returning `Except.error`, so the
store the caller holds is unchanged). -/
theorem update_status_state_machine (st : List Job) (j : Job) (new : JobStatus)
    (op : Option String) (h : findJob st j.id = some j) :
    ((∃ st', update_status st j.id new op = Except.ok st') ↔
      validTransition j.status new = true) ∧
    (validTransition j.status new = false →
      update_status st j.id new op = Except.error TrackerError.stateTransition) ∧
    (∀ a b, validTransition a b = true ↔
      ((a = JobStatus.queued ∧ b = JobStatus.processing) ∨
       (a = JobStatus.queued ∧ b = JobStatus.completed) ∨
       (a = JobStatus.queued ∧ b = JobStatus.failed) ∨
       (a = JobStatus.processing ∧ b = JobStatus.completed) ∨
       (a = JobStatus.processing ∧ b = JobStatus.failed) ∨
       (a = JobStatus.completed ∧ b = JobStatus.downloaded))) ∧
    ((j.status = JobStatus.failed ∨ j.status = JobStatus.downloaded) →
      update_status st j.id new op = Except.error TrackerError.stateTransition) ∧
    (j.status = JobStatus.queued → new = JobStatus.downloaded →
      update_status st j.id new op = Except.error TrackerError.stateTransition) := by
  refine ⟨?_, ?_, ?_, ?_, ?_⟩
  · cases hv : validTransition j.status new <;> simp [update_status, h, hv]
  · intro hv; simp [update_status, h, hv]
  · decide
  · intro hterm
    have hv : validTransition j.status new = false := by
      rcases hterm with h1 | h1 <;> rw [h1] <;> cases new <;> rfl
    simp [update_status, h, hv]
  · intro h1 h2
    have hv : validTransition j.status new = false := by rw [h1, h2]; rfl
    simp [update_status, h, hv]

/-- Witness for `update_status_state_machine`: on a store holding one QUEUED
job, the QUEUED→DOWNLOADED transition issued by the music flow is rejected
with `StateTransitionError`. -/
theorem update_status_state_machine_witness :
    update_status
      [{ id := "abc123", provider := "minimax", contentType := "music",
         prompt := "lofi beat", status := JobStatus.queued, outputPath := none }]
      "abc123" JobStatus.downloaded none =
      Except.error TrackerError.stateTransition := by
  have h := update_status_state_machine
    [{ id := "abc123", provider := "minimax", contentType := "music",
       prompt := "lofi beat", status := JobStatus.queued, outputPath := none }]
    { id := "abc123", provider := "minimax", contentType := "music",
      prompt := "lofi beat", status := JobStatus.queued, outputPath := none }
    JobStatus.downloaded none (by decide)
  exact h.2.2.2.2 rfl rfl

/-- **C3 counterexample.** The generate-video flow invokes the provider
without ever calling `find_duplicate` (it has no force flag and performs no
duplicate check), refuting the claim for the video flow. -/
theorem generate_video_skips_duplicate_check :
    videoFlowTrace { providerKnown := true } =
      [FlowStep.resolveProvider, FlowStep.providerGenerate] ∧
    FlowStep.findDuplicate ∉ videoFlowTrace { providerKnown := true } ∧
    FlowStep.providerGenerate ∈ videoFlowTrace { providerKnown := true } := by
  decide

/-- **C3 (amended).** In the generate-music flow only: unless `force` is set,
the orchestrator calls `find_duplicate` before anything else, and if a
duplicate job exists in any non-failed state (QUEUED, PROCESSING, COMPLETED
or DOWNLOADED) it short-circuits — reporting the existing job and exiting
with code 0 — without invoking the provider's generate operation.  The
generate-video flow performs no duplicate check (see
`generate_video_skips_duplicate_check`). -/
theorem generate_music_duplicate_check (force : Bool) (provider prompt : String)
    (env : MusicFlowEnv) (hforce : force = false) :
    (musicFlowTrace force provider prompt env).head? = some FlowStep.findDuplicate ∧
    (∀ j, env.dup = some j → j.status ≠ JobStatus.failed →
      musicFlowTrace force provider prompt env =
        [FlowStep.findDuplicate, FlowStep.exitCode 0]) ∧
    (∀ j, env.dup = some j → j.status ≠ JobStatus.failed →
      FlowStep.providerGenerate ∉ musicFlowTrace force provider prompt env) := by
  subst hforce
  refine ⟨?_, ?_, ?_⟩
  · simp [musicFlowTrace]
  · intro j hj hne
    cases hst : j.status <;>
      simp_all [musicFlowTrace, hj, hst, beq_iff_eq]
  · intro j hj hne
    cases hst : j.status <;>
      simp_all [musicFlowTrace, hj, hst, beq_iff_eq]

/-- Witness for `generate_music_duplicate_check`: with a PROCESSING duplicate
present and `force = false`, the flow exits without invoking the provider. -/
theorem generate_music_duplicate_check_witness :
    (musicFlowTrace false "minimax" "lofi beat"
        { dup := some { id := "abc123", status := JobStatus.processing },
          providerKnown := true,
          result := { success := true, provider := "minimax",
                      contentType := "music" } }).head? =
      some FlowStep.findDuplicate ∧
    musicFlowTrace false "minimax" "lofi beat"
        { dup := some { id := "abc123", status := JobStatus.processing },
          providerKnown := true,
          result := { success := true, provider := "minimax",
                      contentType := "music" } } =
      [FlowStep.findDuplicate, FlowStep.exitCode 0] := by
  have h := generate_music_duplicate_check false "minimax" "lofi beat"
    { dup := some { id := "abc123", status := JobStatus.processing },
      providerKnown := true,
      result := { success := true, provider := "minimax",
                  contentType := "music" } } rfl
  exact ⟨h.1, h.2.1 _ rfl (by decide)⟩

/-- An optional string is truthy exactly when it is a non-empty string. -/
lemma truthyStr_eq_true_iff (x : Option String) :
    truthyStr x = true ↔ ∃ s, x = some s ∧ s ≠ "" := by
  cases x <;> simp [truthyStr]

/-- A field of the environment known to raise, under the non-empty-messages
assumption, raises a non-empty message. -/
lemma msgNonempty_of_error {α : Type} (x : Except String α) (e : String)
    (hx : x = Except.error e) (h : exceptMsgNonempty x = true) : e ≠ "" := by
  subst hx
  simpa [exceptMsgNonempty] using h

lemma minimaxEnvMsgsNonempty_spec (env : MiniMaxEnv)
    (h : minimaxEnvMsgsNonempty env = true) :
    exceptMsgNonempty env.submit = true ∧
    exceptMsgNonempty env.waitForCompletion = true ∧
    exceptMsgNonempty env.download = true ∧
    exceptMsgNonempty env.write = true := by
  simp only [minimaxEnvMsgsNonempty, Bool.and_eq_true] at h
  exact ⟨h.1.1.1, h.1.1.2, h.1.2, h.2⟩

lemma lyriaEnvMsgsNonempty_spec (env : LyriaEnv)
    (h : lyriaEnvMsgsNonempty env = true) :
    exceptMsgNonempty env.connect = true ∧
    exceptMsgNonempty env.setPrompts = true ∧
    exceptMsgNonempty env.setConfig = true ∧
    exceptMsgNonempty env.play = true ∧
    exceptMsgNonempty env.stop = true := by
  simp only [lyriaEnvMsgsNonempty, Bool.and_eq_true] at h
  exact ⟨h.1.1.1.1, h.1.1.1.2, h.1.1.2, h.1.2, h.2⟩

lemma imagenEnvMsgsNonempty_spec (env : ImagenEnv)
    (h : imagenEnvMsgsNonempty env = true) :
    exceptMsgNonempty env.geminiParts = true ∧
    exceptMsgNonempty env.imagenImages = true ∧
    exceptMsgNonempty env.write = true := by
  simp only [imagenEnvMsgsNonempty, Bool.and_eq_true] at h
  exact ⟨h.1.1, h.1.2, h.2⟩

/-- The only exception `v.get(k)` can raise is an `AttributeError`, whose
message is non-empty. -/
lemma attrGet_error_ne (v : PyVal) (k : String) (e : String)
    (h : attrGet v k = Except.error e) : e ≠ "" := by
  unfold attrGet at h
  split at h
  · exact Except.noConfusion h
  · injection h with h1
    subst h1
    decide

/-- The `"output"` branch raises only `AttributeError`s. -/
lemma extractFromOutput_error_ne (status : List (String × PyVal)) (e : String)
    (h : extractFromOutput status = Except.error e) : e ≠ "" := by
  unfold extractFromOutput at h
  repeat' split at h
  all_goals try exact Except.noConfusion h
  all_goals (injection h with h1; subst h1; exact attrGet_error_ne _ _ _ (by assumption))

/-- The only exceptions `_extract_audio_url` itself can raise are
`AttributeError`s, whose message is non-empty. -/
lemma extractAudioUrl_error_ne (status : List (String × PyVal)) (e : String)
    (h : extractAudioUrl status = Except.error e) : e ≠ "" := by
  unfold extractAudioUrl extractAfterAudioFile at h
  repeat' split at h
  all_goals try exact Except.noConfusion h
  all_goals exact extractFromOutput_error_ne _ _ h

/-- `lyriaSession` fails only with the message of one of the five
session-control steps. -/
lemma lyriaSession_error_msg (env : LyriaEnv) (e : String)
    (h : lyriaSession env = Except.error e)
    (hok : lyriaEnvMsgsNonempty env = true) : e ≠ "" := by
  obtain ⟨o1, o2, o3, o4, o5⟩ := lyriaEnvMsgsNonempty_spec env hok
  unfold lyriaSession at h
  repeat' split at h
  all_goals simp_all [exceptMsgNonempty]

/-- A successful `lyriaSession` returns exactly the chunks the receive task
collected. -/
lemma lyriaSession_ok_val (env : LyriaEnv) (chunks : List (List Nat))
    (h : lyriaSession env = Except.ok chunks) :
    chunks = receiveChunks env.stream := by
  unfold lyriaSession at h
  repeat' split at h
  all_goals simp_all

/-- Case analysis of `minimaxGenerate`: a success result carrying file path,
data and a non-empty generation id; the id-less submission failure; the
missing-audio-URL failure (the only failure carrying a generation id); or a
caught exception whose message becomes the error. -/
lemma minimaxGenerate_cases (env : MiniMaxEnv) (op : Option String) :
    (∃ gid d, gid ≠ "" ∧ minimaxGenerate env op =
        Except.ok ({ success := true, provider := "minimax", contentType := "music",
                     filePath := some (minimaxOutputPath op env.timestamp),
                     data := some d, generationId := some gid },
                   [(minimaxOutputPath op env.timestamp, d)])) ∨
    (minimaxGenerate env op =
        Except.ok ({ success := false, provider := "minimax", contentType := "music",
                     error := some "No generation ID in response" }, [])) ∨
    (∃ gid, gid ≠ "" ∧ minimaxGenerate env op =
        Except.ok ({ success := false, provider := "minimax", contentType := "music",
                     error := some "No audio URL in response",
                     generationId := some gid }, [])) ∨
    (∃ e, (minimaxEnvMsgsNonempty env = true → e ≠ "") ∧ minimaxGenerate env op =
        Except.ok ({ success := false, provider := "minimax", contentType := "music",
                     error := some e }, [])) := by
  cases hs : env.submit with
  | error e =>
    refine Or.inr (Or.inr (Or.inr ⟨e, ?_, ?_⟩))
    · intro hok
      exact msgNonempty_of_error _ e hs (minimaxEnvMsgsNonempty_spec env hok).1
    · simp [minimaxGenerate, minimaxBody, hs]
  | ok resp =>
    cases ht : truthyStr (pyOrStr resp.id resp.generationId) with
    | false =>
      refine Or.inr (Or.inl ?_)
      simp [minimaxGenerate, minimaxBody, hs, ht]
    | true =>
      obtain ⟨gid, hgid, hgne⟩ := (truthyStr_eq_true_iff _).mp ht
      cases hw : env.waitForCompletion with
      | error e =>
        refine Or.inr (Or.inr (Or.inr ⟨e, ?_, ?_⟩))
        · intro hok
          exact msgNonempty_of_error _ e hw (minimaxEnvMsgsNonempty_spec env hok).2.1
        · simp [minimaxGenerate, minimaxBody, hs, ht, hw]
      | ok status =>
        cases hx : extractAudioUrl status with
        | error e =>
          refine Or.inr (Or.inr (Or.inr ⟨e, ?_, ?_⟩))
          · intro hok
            exact extractAudioUrl_error_ne status e hx
          · simp [minimaxGenerate, minimaxBody, hs, ht, hw, hx]
        | ok url =>
          cases hu : pyTruthy url with
          | false =>
            refine Or.inr (Or.inr (Or.inl ⟨gid, hgne, ?_⟩))
            simp [minimaxGenerate, minimaxBody, hs, ht, hw, hx, hu, hgid,
              truthyStr, beq_iff_eq, hgne]
          | true =>
            cases hd : env.download with
            | error e =>
              refine Or.inr (Or.inr (Or.inr ⟨e, ?_, ?_⟩))
              · intro hok
                exact msgNonempty_of_error _ e hd (minimaxEnvMsgsNonempty_spec env hok).2.2.1
              · simp [minimaxGenerate, minimaxBody, hs, ht, hw, hx, hu, hd]
            | ok dat =>
              cases hwr : env.write with
              | error e =>
                refine Or.inr (Or.inr (Or.inr ⟨e, ?_, ?_⟩))
                · intro hok
                  exact msgNonempty_of_error _ e hwr (minimaxEnvMsgsNonempty_spec env hok).2.2.2
                · simp [minimaxGenerate, minimaxBody, hs, ht, hw, hx, hu, hd, hwr]
              | ok u =>
                refine Or.inl ⟨gid, dat, hgne, ?_⟩
                simp [minimaxGenerate, minimaxBody, hs, ht, hw, hx, hu, hd, hwr, hgid,
                  truthyStr, beq_iff_eq, hgne]

/-- Case analysis of `lyriaGenerate` when the client was obtained: a caught
session-control exception, the no-data failure, or a success carrying file
path and the concatenated chunks. -/
lemma lyriaGenerate_cases (env : LyriaEnv) (op : Option String)
    (hc : env.getClient = Except.ok ()) :
    (∃ e, (lyriaEnvMsgsNonempty env = true → e ≠ "") ∧ lyriaGenerate env op =
        Except.ok ({ success := false, provider := "lyria", contentType := "music",
                     error := some e }, [])) ∨
    (lyriaGenerate env op =
        Except.ok ({ success := false, provider := "lyria", contentType := "music",
                     error := some "No audio data received" }, [])) ∨
    (∃ bytes, lyriaGenerate env op =
        Except.ok ({ success := true, provider := "lyria", contentType := "music",
                     filePath := some (lyriaOutputPath op env.timestamp),
                     data := some (receiveChunks env.stream).flatten },
                   [(lyriaOutputPath op env.timestamp, bytes)])) := by
  cases hs : lyriaSession env with
  | error e =>
    refine Or.inl ⟨e, ?_, ?_⟩
    · intro hok
      exact lyriaSession_error_msg env e hs hok
    · simp [lyriaGenerate, hc, hs]
  | ok chunks =>
    have hval := lyriaSession_ok_val env chunks hs
    subst hval
    cases hempty : (receiveChunks env.stream).isEmpty with
    | true =>
      refine Or.inr (Or.inl ?_)
      simp [lyriaGenerate, hc, hs, hempty]
    | false =>
      refine Or.inr (Or.inr ?_)
      cases hw : env.waveWrite with
      | ok u =>
        refine ⟨wavHeader 2 2 44100 (receiveChunks env.stream).flatten.length ++
          (receiveChunks env.stream).flatten, ?_⟩
        simp [lyriaGenerate, hc, hs, hempty, hw]
      | error e =>
        refine ⟨(receiveChunks env.stream).flatten, ?_⟩
        simp [lyriaGenerate, hc, hs, hempty, hw]

/-- Case analysis of `imagenGenerate` when the client was obtained: a caught
exception, one of the two no-image failures, or a success carrying file path
and data. -/
lemma imagenGenerate_cases (env : ImagenEnv) (g : Bool) (op : Option String)
    (hc : env.getClient = Except.ok ()) :
    (∃ e, (imagenEnvMsgsNonempty env = true → e ≠ "") ∧ imagenGenerate env g op =
        Except.ok ({ success := false, provider := "imagen", contentType := "image",
                     error := some e }, [])) ∨
    (imagenGenerate env g op =
        Except.ok ({ success := false, provider := "imagen", contentType := "image",
                     error := some "No image in Gemini response" }, [])) ∨
    (imagenGenerate env g op =
        Except.ok ({ success := false, provider := "imagen", contentType := "image",
                     error := some "No images generated" }, [])) ∨
    (∃ d, imagenGenerate env g op =
        Except.ok ({ success := true, provider := "imagen", contentType := "image",
                     filePath := some (imagenOutputPath op env.timestamp),
                     data := some d },
                   [(imagenOutputPath op env.timestamp, d)])) := by
  cases g with
  | true =>
    cases hp : env.geminiParts with
    | error e =>
      refine Or.inl ⟨e, ?_, ?_⟩
      · intro hok
        exact msgNonempty_of_error _ e hp (imagenEnvMsgsNonempty_spec env hok).1
      · simp [imagenGenerate, imagenBody, hc, hp]
    | ok parts =>
      cases hf : parts.findSome? (fun x => x) with
      | none =>
        refine Or.inr (Or.inl ?_)
        simp [imagenGenerate, imagenBody, hc, hp, hf]
      | some d =>
        cases hde : d.isEmpty with
        | true =>
          refine Or.inr (Or.inl ?_)
          simp [imagenGenerate, imagenBody, hc, hp, hf, hde]
        | false =>
          cases hw : env.write with
          | error e =>
            refine Or.inl ⟨e, ?_, ?_⟩
            · intro hok
              exact msgNonempty_of_error _ e hw (imagenEnvMsgsNonempty_spec env hok).2.2
            · simp [imagenGenerate, imagenBody, imagenSave, hc, hp, hf, hde, hw]
          | ok u =>
            refine Or.inr (Or.inr (Or.inr ⟨d, ?_⟩))
            simp [imagenGenerate, imagenBody, imagenSave, hc, hp, hf, hde, hw]
  | false =>
    cases hi : env.imagenImages with
    | error e =>
      refine Or.inl ⟨e, ?_, ?_⟩
      · intro hok
        exact msgNonempty_of_error _ e hi (imagenEnvMsgsNonempty_spec env hok).2.1
      · simp [imagenGenerate, imagenBody, hc, hi]
    | ok images =>
      cases images with
      | nil =>
        refine Or.inr (Or.inr (Or.inl ?_))
        simp [imagenGenerate, imagenBody, hc, hi]
      | cons d rest =>
        cases hw : env.write with
        | error e =>
          refine Or.inl ⟨e, ?_, ?_⟩
          · intro hok
            exact msgNonempty_of_error _ e hw (imagenEnvMsgsNonempty_spec env hok).2.2
          · simp [imagenGenerate, imagenBody, imagenSave, hc, hi, hw]
        | ok u =>
          refine Or.inr (Or.inr (Or.inr ⟨d, ?_⟩))
          simp [imagenGenerate, imagenBody, imagenSave, hc, hi, hw]

/-- **C6.** A streaming (Lyria) session that completes having received zero
audio chunks returns a failed `GenerationResult` whose error is the
`NoDataError`-class message `"No audio data received"`; no file is written
and no success result is produced. -/
theorem lyria_zero_chunks_fails (env : LyriaEnv) (op : Option String)
    (hc : env.getClient = Except.ok ()) (h1 : env.connect = Except.ok ())
    (h2 : env.setPrompts = Except.ok ()) (h3 : env.setConfig = Except.ok ())
    (h4 : env.play = Except.ok ()) (h5 : env.stop = Except.ok ())
    (h0 : receiveChunks env.stream = []) :
    lyriaGenerate env op =
      Except.ok ({ success := false, provider := "lyria", contentType := "music",
                   error := some "No audio data received" }, []) := by
  simp [lyriaGenerate, lyriaSession, hc, h1, h2, h3, h4, h5, h0]

/-- Witness for `lyria_zero_chunks_fails` at a session that received
nothing. -/
theorem lyria_zero_chunks_fails_witness :
    lyriaGenerate
      { getClient := Except.ok (), connect := Except.ok (),
        setPrompts := Except.ok (), setConfig := Except.ok (),
        play := Except.ok (), stop := Except.ok (),
        stream := [], waveWrite := Except.ok (), timestamp := "t" } none =
      Except.ok ({ success := false, provider := "lyria", contentType := "music",
                   error := some "No audio data received" }, []) :=
  lyria_zero_chunks_fails
    { getClient := Except.ok (), connect := Except.ok (),
      setPrompts := Except.ok (), setConfig := Except.ok (),
      play := Except.ok (), stop := Except.ok (),
      stream := [], waveWrite := Except.ok (), timestamp := "t" }
    none rfl rfl rfl rfl rfl rfl rfl

/-- **C7.** A streaming (Lyria) session that receives at least one audio
chunk returns a successful `GenerationResult` whose audio data is exactly the
byte-for-byte concatenation of the received chunks in receipt order. -/
theorem lyria_chunks_concatenated (env : LyriaEnv) (op : Option String)
    (hc : env.getClient = Except.ok ()) (h1 : env.connect = Except.ok ())
    (h2 : env.setPrompts = Except.ok ()) (h3 : env.setConfig = Except.ok ())
    (h4 : env.play = Except.ok ()) (h5 : env.stop = Except.ok ())
    (hne : receiveChunks env.stream ≠ []) :
    ∃ bytes,
      lyriaGenerate env op =
        Except.ok ({ success := true, provider := "lyria", contentType := "music",
                     filePath := some (lyriaOutputPath op env.timestamp),
                     data := some (receiveChunks env.stream).flatten },
                   [(lyriaOutputPath op env.timestamp, bytes)]) := by
  have hempty : (receiveChunks env.stream).isEmpty = false := by
    cases hcs : receiveChunks env.stream with
    | nil => exact absurd hcs hne
    | cons a as => rfl
  cases hw : env.waveWrite with
  | ok u =>
    refine ⟨wavHeader 2 2 44100 (receiveChunks env.stream).flatten.length ++
      (receiveChunks env.stream).flatten, ?_⟩
    simp [lyriaGenerate, lyriaSession, hc, h1, h2, h3, h4, h5, hempty, hw]
  | error e =>
    refine ⟨(receiveChunks env.stream).flatten, ?_⟩
    simp [lyriaGenerate, lyriaSession, hc, h1, h2, h3, h4, h5, hempty, hw]

/-- Witness for `lyria_chunks_concatenated`: two chunks are concatenated in
receipt order. -/
theorem lyria_chunks_concatenated_witness :
    ∃ bytes,
      lyriaGenerate
        { getClient := Except.ok (), connect := Except.ok (),
          setPrompts := Except.ok (), setConfig := Except.ok (),
          play := Except.ok (), stop := Except.ok (),
          stream := [StreamItem.msg [some [1, 2]], StreamItem.msg [some [3]]],
          waveWrite := Except.ok (), timestamp := "t" } none =
        Except.ok ({ success := true, provider := "lyria", contentType := "music",
                     filePath := some (lyriaOutputPath none "t"),
                     data := some (receiveChunks
                       [StreamItem.msg [some [1, 2]], StreamItem.msg [some [3]]]).flatten },
                   [(lyriaOutputPath none "t", bytes)]) :=
  lyria_chunks_concatenated
    { getClient := Except.ok (), connect := Except.ok (),
      setPrompts := Except.ok (), setConfig := Except.ok (),
      play := Except.ok (), stop := Except.ok (),
      stream := [StreamItem.msg [some [1, 2]], StreamItem.msg [some [3]]],
      waveWrite := Except.ok (), timestamp := "t" }
    none rfl rfl rfl rfl rfl rfl (by decide)

/-- **C8 counterexample.** A transport exception raised inside the streaming
receive loop is swallowed (`receive_audio`'s `except Exception` clause,
`lyria.py` lines 121-124): with one chunk captured before a receive-path
exception, `generate` still returns a *successful* result carrying the
partial audio and writes a file — refuting the claim that any transport
exception during the session yields a failed result with the partial chunks
discarded. -/
theorem lyria_receive_error_keeps_partial_audio :
    lyriaGenerate
      { getClient := Except.ok (), connect := Except.ok (),
        setPrompts := Except.ok (), setConfig := Except.ok (),
        play := Except.ok (), stop := Except.ok (),
        stream := [StreamItem.msg [some [1, 2, 3]], StreamItem.err "connection reset"],
        waveWrite := Except.ok (), timestamp := "t" } none =
      Except.ok ({ success := true, provider := "lyria", contentType := "music",
                   filePath := some "output/music/lyria_t.wav",
                   data := some [1, 2, 3] },
                 [("output/music/lyria_t.wav", wavHeader 2 2 44100 3 ++ [1, 2, 3])]) := by
  rfl

/-- **C8 (amended).** A transport exception in the session-control path
(connect, configure, play, stop) aborts with a failed `GenerationResult`
carrying no data, and nothing is written: audio already captured is
discarded.  An exception inside the concurrent receive loop, however, is
swallowed after logging: chunks received before it are kept (receiving just
stops), and generation proceeds — possibly returning success with partial
audio (see `lyria_receive_error_keeps_partial_audio`). -/
theorem lyria_session_error_discards_audio (env : LyriaEnv) (op : Option String)
    (e : String) (hc : env.getClient = Except.ok ())
    (hs : lyriaSession env = Except.error e) :
    lyriaGenerate env op =
      Except.ok ({ success := false, provider := "lyria", contentType := "music",
                   error := some e }, []) ∧
    ∀ pre m post,
      receiveChunks (pre ++ StreamItem.err m :: post) = receiveChunks pre := by
  constructor
  · simp [lyriaGenerate, hc, hs]
  · intro pre m post
    induction pre with
    | nil => rfl
    | cons x xs ih =>
      cases x with
      | err e' => rfl
      | msg cs => simp [receiveChunks, ih]

/-- Witness for `lyria_session_error_discards_audio`: the `play` call raises
after a chunk was already captured; the result is failed, without data, and
no file is written. -/
theorem lyria_session_error_discards_audio_witness :
    lyriaGenerate
      { getClient := Except.ok (), connect := Except.ok (),
        setPrompts := Except.ok (), setConfig := Except.ok (),
        play := Except.error "socket closed", stop := Except.ok (),
        stream := [StreamItem.msg [some [9]]],
        waveWrite := Except.ok (), timestamp := "t" } none =
      Except.ok ({ success := false, provider := "lyria", contentType := "music",
                   error := some "socket closed" }, []) :=
  (lyria_session_error_discards_audio
    { getClient := Except.ok (), connect := Except.ok (),
      setPrompts := Except.ok (), setConfig := Except.ok (),
      play := Except.error "socket closed", stop := Except.ok (),
      stream := [StreamItem.msg [some [9]]],
      waveWrite := Except.ok (), timestamp := "t" }
    none "socket closed" rfl rfl).1

/-- **C9 counterexample.** When the WAV write raises, `lyria.py` lines
204-207 fall back to writing the raw captured bytes: the produced file is the
bare audio data, not a WAV-enveloped artifact — refuting the claim that raw
samples are never written as the output artifact. -/
theorem lyria_wave_failure_writes_raw :
    lyriaGenerate
      { getClient := Except.ok (), connect := Except.ok (),
        setPrompts := Except.ok (), setConfig := Except.ok (),
        play := Except.ok (), stop := Except.ok (),
        stream := [StreamItem.msg [some [1, 2, 3]]],
        waveWrite := Except.error "wave module failed", timestamp := "t" } none =
      Except.ok ({ success := true, provider := "lyria", contentType := "music",
                   filePath := some "output/music/lyria_t.wav",
                   data := some [1, 2, 3] },
                 [("output/music/lyria_t.wav", [1, 2, 3])]) ∧
    ([1, 2, 3] : List Nat) ≠ wavHeader 2 2 44100 3 ++ [1, 2, 3] := by
  exact ⟨rfl, by decide⟩

/-- **C9 (amended).** A successful streaming (Lyria) generation writes the
captured audio wrapped in a RIFF/WAVE envelope whose header records 2
channels, 2-byte sample width and 44100 Hz sample rate — unless the WAV
write itself raises, in which case the raw bytes are written as a fallback
(see `lyria_wave_failure_writes_raw`). -/
theorem lyria_output_wav_envelope (env : LyriaEnv) (op : Option String)
    (hc : env.getClient = Except.ok ()) (h1 : env.connect = Except.ok ())
    (h2 : env.setPrompts = Except.ok ()) (h3 : env.setConfig = Except.ok ())
    (h4 : env.play = Except.ok ()) (h5 : env.stop = Except.ok ())
    (hne : receiveChunks env.stream ≠ [])
    (hw : env.waveWrite = Except.ok ()) :
    lyriaGenerate env op =
      Except.ok ({ success := true, provider := "lyria", contentType := "music",
                   filePath := some (lyriaOutputPath op env.timestamp),
                   data := some (receiveChunks env.stream).flatten },
                 [(lyriaOutputPath op env.timestamp,
                   wavHeader 2 2 44100 (receiveChunks env.stream).flatten.length ++
                     (receiveChunks env.stream).flatten)]) := by
  have hempty : (receiveChunks env.stream).isEmpty = false := by
    cases hcs : receiveChunks env.stream with
    | nil => exact absurd hcs hne
    | cons a as => rfl
  simp [lyriaGenerate, lyriaSession, hc, h1, h2, h3, h4, h5, hempty, hw]

/-- Witness for `lyria_output_wav_envelope` at a one-chunk session. -/
theorem lyria_output_wav_envelope_witness :
    lyriaGenerate
      { getClient := Except.ok (), connect := Except.ok (),
        setPrompts := Except.ok (), setConfig := Except.ok (),
        play := Except.ok (), stop := Except.ok (),
        stream := [StreamItem.msg [some [7, 8]]],
        waveWrite := Except.ok (), timestamp := "t" } none =
      Except.ok ({ success := true, provider := "lyria", contentType := "music",
                   filePath := some (lyriaOutputPath none "t"),
                   data := some (receiveChunks [StreamItem.msg [some [7, 8]]]).flatten },
                 [(lyriaOutputPath none "t",
                   wavHeader 2 2 44100
                       (receiveChunks [StreamItem.msg [some [7, 8]]]).flatten.length ++
                     (receiveChunks [StreamItem.msg [some [7, 8]]]).flatten)]) :=
  lyria_output_wav_envelope
    { getClient := Except.ok (), connect := Except.ok (),
      setPrompts := Except.ok (), setConfig := Except.ok (),
      play := Except.ok (), stop := Except.ok (),
      stream := [StreamItem.msg [some [7, 8]]],
      waveWrite := Except.ok (), timestamp := "t" }
    none rfl rfl rfl rfl rfl rfl (by decide) rfl

/-- **C4 counterexample.** In `lyria.py` (and likewise `imagen.py`) the
client acquisition (`self._get_client()`, which raises `AuthenticationError`
when no API key is configured and `ProviderError` when the `google-genai`
package is missing) runs *before* the `try` block: its exception escapes the
`generate` call instead of being returned as a failed `GenerationResult`,
refuting the claim that the caller always receives a result object. -/
theorem lyria_client_error_escapes :
    lyriaGenerate
      { getClient := Except.error "Authentication failed for provider lyria",
        connect := Except.ok (), setPrompts := Except.ok (),
        setConfig := Except.ok (), play := Except.ok (), stop := Except.ok (),
        stream := [], waveWrite := Except.ok (), timestamp := "t" } none =
      Except.error "Authentication failed for provider lyria" := rfl

/-- **C4 (amended).** For MiniMax, every exception raised inside `generate`
is caught and returned as a failed `GenerationResult`, so the caller always
receives a result object.  For Lyria and Imagen the same holds *provided the
client acquisition preceding the `try` block succeeded*; exceptions raised
during the generation session / vendor API calls are caught and converted to
a failed result with `error = str(e)` (client-initialization errors escape,
see `lyria_client_error_escapes`). -/
theorem provider_exceptions_become_results
    (envM : MiniMaxEnv) (opM : Option String)
    (envL : LyriaEnv) (opL : Option String)
    (envI : ImagenEnv) (g : Bool) (opI : Option String)
    (hcL : envL.getClient = Except.ok ()) (hcI : envI.getClient = Except.ok ()) :
    (∃ x, minimaxGenerate envM opM = Except.ok x) ∧
    (∃ y, lyriaGenerate envL opL = Except.ok y) ∧
    (∃ z, imagenGenerate envI g opI = Except.ok z) ∧
    (∀ e, minimaxBody envM opM = Except.error e →
      minimaxGenerate envM opM =
        Except.ok ({ success := false, provider := "minimax", contentType := "music",
                     error := some e }, [])) ∧
    (∀ e, lyriaSession envL = Except.error e →
      lyriaGenerate envL opL =
        Except.ok ({ success := false, provider := "lyria", contentType := "music",
                     error := some e }, [])) ∧
    (∀ e, imagenBody envI g opI = Except.error e →
      imagenGenerate envI g opI =
        Except.ok ({ success := false, provider := "imagen", contentType := "image",
                     error := some e }, [])) := by
  refine ⟨?_, ?_, ?_, ?_, ?_, ?_⟩
  · rcases minimaxGenerate_cases envM opM with ⟨gid, d, hg, hq⟩ | hq | ⟨gid, hg, hq⟩ | ⟨e, hg, hq⟩ <;>
      exact ⟨_, hq⟩
  · rcases lyriaGenerate_cases envL opL hcL with ⟨e, hg, hq⟩ | hq | ⟨bytes, hq⟩ <;>
      exact ⟨_, hq⟩
  · rcases imagenGenerate_cases envI g opI hcI with ⟨e, hg, hq⟩ | hq | hq | ⟨d, hq⟩ <;>
      exact ⟨_, hq⟩
  · intro e he
    simp [minimaxGenerate, he]
  · intro e he
    simp [lyriaGenerate, hcL, he]
  · intro e he
    simp [imagenGenerate, hcI, he]

/-- Witness for `provider_exceptions_become_results` at concrete
environments (a MiniMax submission that raises, an ok Lyria session, an ok
Imagen call). -/
theorem provider_exceptions_become_results_witness :
    (∃ x, minimaxGenerate
        { submit := Except.error "boom", waitForCompletion := Except.ok [],
          download := Except.ok [], write := Except.ok (), timestamp := "t" }
        none = Except.ok x) ∧
    (∃ y, lyriaGenerate
        { getClient := Except.ok (), connect := Except.ok (),
          setPrompts := Except.ok (), setConfig := Except.ok (),
          play := Except.ok (), stop := Except.ok (), stream := [],
          waveWrite := Except.ok (), timestamp := "t" } none = Except.ok y) ∧
    (∃ z, imagenGenerate
        { getClient := Except.ok (), geminiParts := Except.ok [],
          imagenImages := Except.ok [[1]], write := Except.ok (),
          timestamp := "t" } false none = Except.ok z) := by
  have h := provider_exceptions_become_results
    { submit := Except.error "boom", waitForCompletion := Except.ok [],
      download := Except.ok [], write := Except.ok (), timestamp := "t" } none
    { getClient := Except.ok (), connect := Except.ok (),
      setPrompts := Except.ok (), setConfig := Except.ok (),
      play := Except.ok (), stop := Except.ok (), stream := [],
      waveWrite := Except.ok (), timestamp := "t" } none
    { getClient := Except.ok (), geminiParts := Except.ok [],
      imagenImages := Except.ok [[1]], write := Except.ok (),
      timestamp := "t" } false none rfl rfl
  exact ⟨h.1, h.2.1, h.2.2.1⟩

/-- **C5 counterexample.** The `except` clauses set `error = str(e)`, and a
Python exception's `str()` can be empty (e.g. a bare `TimeoutError()` raised
by the polling loop): the resulting failed `GenerationResult` carries an
*empty* error string, refuting the claim that a failed result's error is
always non-empty. -/
theorem minimax_empty_error_message :
    minimaxGenerate
      { submit := Except.ok { id := some "gen-1" },
        waitForCompletion := Except.error "",
        download := Except.ok [], write := Except.ok (), timestamp := "t" } none =
      Except.ok ({ success := false, provider := "minimax", contentType := "music",
                   error := some "" }, []) := rfl

/-- **C5 (amended).** Every `GenerationResult` returned by a provider's
`generate` satisfies: if `success` is true then at least one of `file_path`
or `data` is set (in fact both are); if `success` is false then `error` is
set, and it is non-empty provided every exception the environment raises has
a non-empty `str()` (the hand-written failure messages are always
non-empty; only a caught exception with an empty message yields an empty
error, see `minimax_empty_error_message`). -/
theorem generation_result_wellformed
    (envM : MiniMaxEnv) (opM : Option String)
    (rM : GenerationResult) (wM : List (String × List Nat))
    (envL : LyriaEnv) (opL : Option String)
    (rL : GenerationResult) (wL : List (String × List Nat))
    (envI : ImagenEnv) (g : Bool) (opI : Option String)
    (rI : GenerationResult) (wI : List (String × List Nat))
    (hcL : envL.getClient = Except.ok ()) (hcI : envI.getClient = Except.ok ())
    (hM : minimaxGenerate envM opM = Except.ok (rM, wM))
    (hL : lyriaGenerate envL opL = Except.ok (rL, wL))
    (hI : imagenGenerate envI g opI = Except.ok (rI, wI)) :
    (rM.success = true → rM.filePath.isSome ∨ rM.data.isSome) ∧
    (rM.success = false → ∃ e, rM.error = some e ∧
      (minimaxEnvMsgsNonempty envM = true → e ≠ "")) ∧
    (rL.success = true → rL.filePath.isSome ∨ rL.data.isSome) ∧
    (rL.success = false → ∃ e, rL.error = some e ∧
      (lyriaEnvMsgsNonempty envL = true → e ≠ "")) ∧
    (rI.success = true → rI.filePath.isSome ∨ rI.data.isSome) ∧
    (rI.success = false → ∃ e, rI.error = some e ∧
      (imagenEnvMsgsNonempty envI = true → e ≠ "")) := by
  refine ⟨?_, ?_, ?_, ?_, ?_, ?_⟩
  · rcases minimaxGenerate_cases envM opM with ⟨gid, d, hg, hq⟩ | hq | ⟨gid, hg, hq⟩ | ⟨e, hg, hq⟩ <;>
      (rw [hM] at hq; injection hq with hq1;
       rw [show rM = _ from congrArg Prod.fst hq1]; simp)
  · rcases minimaxGenerate_cases envM opM with ⟨gid, d, hg, hq⟩ | hq | ⟨gid, hg, hq⟩ | ⟨e, hg, hq⟩ <;>
      (rw [hM] at hq; injection hq with hq1;
       rw [show rM = _ from congrArg Prod.fst hq1])
    · simp
    · exact fun _ => ⟨"No generation ID in response", rfl, fun _ => by decide⟩
    · exact fun _ => ⟨"No audio URL in response", rfl, fun _ => by decide⟩
    · exact fun _ => ⟨e, rfl, hg⟩
  · rcases lyriaGenerate_cases envL opL hcL with ⟨e, hg, hq⟩ | hq | ⟨bytes, hq⟩ <;>
      (rw [hL] at hq; injection hq with hq1;
       rw [show rL = _ from congrArg Prod.fst hq1]; simp)
  · rcases lyriaGenerate_cases envL opL hcL with ⟨e, hg, hq⟩ | hq | ⟨bytes, hq⟩ <;>
      (rw [hL] at hq; injection hq with hq1;
       rw [show rL = _ from congrArg Prod.fst hq1])
    · exact fun _ => ⟨e, rfl, hg⟩
    · exact fun _ => ⟨"No audio data received", rfl, fun _ => by decide⟩
    · simp
  · rcases imagenGenerate_cases envI g opI hcI with ⟨e, hg, hq⟩ | hq | hq | ⟨d, hq⟩ <;>
      (rw [hI] at hq; injection hq with hq1;
       rw [show rI = _ from congrArg Prod.fst hq1]; simp)
  · rcases imagenGenerate_cases envI g opI hcI with ⟨e, hg, hq⟩ | hq | hq | ⟨d, hq⟩ <;>
      (rw [hI] at hq; injection hq with hq1;
       rw [show rI = _ from congrArg Prod.fst hq1])
    · exact fun _ => ⟨e, rfl, hg⟩
    · exact fun _ => ⟨"No image in Gemini response", rfl, fun _ => by decide⟩
    · exact fun _ => ⟨"No images generated", rfl, fun _ => by decide⟩
    · simp

/-- Witness for `generation_result_wellformed` at concrete environments: a
MiniMax id-less submission, a one-chunk Lyria success, an Imagen success. -/
theorem generation_result_wellformed_witness :
    ((⟨false, "minimax", "music", none, none, none,
        some "No generation ID in response"⟩ : GenerationResult).success = true →
      (⟨false, "minimax", "music", none, none, none,
        some "No generation ID in response"⟩ : GenerationResult).filePath.isSome ∨
      (⟨false, "minimax", "music", none, none, none,
        some "No generation ID in response"⟩ : GenerationResult).data.isSome) ∧
    ((⟨false, "minimax", "music", none, none, none,
        some "No generation ID in response"⟩ : GenerationResult).success = false →
      ∃ e, (⟨false, "minimax", "music", none, none, none,
        some "No generation ID in response"⟩ : GenerationResult).error = some e ∧
        (minimaxEnvMsgsNonempty
          { submit := Except.ok {}, waitForCompletion := Except.ok [],
            download := Except.ok [], write := Except.ok (),
            timestamp := "t" } = true → e ≠ "")) ∧
    ((⟨true, "lyria", "music", some "output/music/lyria_t.wav", some [1],
        none, none⟩ : GenerationResult).success = true →
      (⟨true, "lyria", "music", some "output/music/lyria_t.wav", some [1],
        none, none⟩ : GenerationResult).filePath.isSome ∨
      (⟨true, "lyria", "music", some "output/music/lyria_t.wav", some [1],
        none, none⟩ : GenerationResult).data.isSome) ∧
    ((⟨true, "lyria", "music", some "output/music/lyria_t.wav", some [1],
        none, none⟩ : GenerationResult).success = false →
      ∃ e, (⟨true, "lyria", "music", some "output/music/lyria_t.wav", some [1],
        none, none⟩ : GenerationResult).error = some e ∧
        (lyriaEnvMsgsNonempty
          { getClient := Except.ok (), connect := Except.ok (),
            setPrompts := Except.ok (), setConfig := Except.ok (),
            play := Except.ok (), stop := Except.ok (),
            stream := [StreamItem.msg [some [1]]],
            waveWrite := Except.ok (), timestamp := "t" } = true → e ≠ "")) ∧
    ((⟨true, "imagen", "image", some "output/image/imagen_t.png", some [5],
        none, none⟩ : GenerationResult).success = true →
      (⟨true, "imagen", "image", some "output/image/imagen_t.png", some [5],
        none, none⟩ : GenerationResult).filePath.isSome ∨
      (⟨true, "imagen", "image", some "output/image/imagen_t.png", some [5],
        none, none⟩ : GenerationResult).data.isSome) ∧
    ((⟨true, "imagen", "image", some "output/image/imagen_t.png", some [5],
        none, none⟩ : GenerationResult).success = false →
      ∃ e, (⟨true, "imagen", "image", some "output/image/imagen_t.png", some [5],
        none, none⟩ : GenerationResult).error = some e ∧
        (imagenEnvMsgsNonempty
          { getClient := Except.ok (), geminiParts := Except.ok [],
            imagenImages := Except.ok [[5]], write := Except.ok (),
            timestamp := "t" } = true → e ≠ "")) :=
  generation_result_wellformed
    { submit := Except.ok {}, waitForCompletion := Except.ok [],
      download := Except.ok [], write := Except.ok (), timestamp := "t" } none
    ⟨false, "minimax", "music", none, none, none,
      some "No generation ID in response"⟩ []
    { getClient := Except.ok (), connect := Except.ok (),
      setPrompts := Except.ok (), setConfig := Except.ok (),
      play := Except.ok (), stop := Except.ok (),
      stream := [StreamItem.msg [some [1]]],
      waveWrite := Except.ok (), timestamp := "t" } none
    ⟨true, "lyria", "music", some "output/music/lyria_t.wav", some [1],
      none, none⟩
    [("output/music/lyria_t.wav", wavHeader 2 2 44100 1 ++ [1])]
    { getClient := Except.ok (), geminiParts := Except.ok [],
      imagenImages := Except.ok [[5]], write := Except.ok (),
      timestamp := "t" } false none
    ⟨true, "imagen", "image", some "output/image/imagen_t.png", some [5],
      none, none⟩
    [("output/image/imagen_t.png", [5])]
    rfl rfl rfl rfl rfl

/-- **C10.** A provider result without a (truthy) generation id causes no
job-tracker mutation at all in the music flow — no `create_job`, no
`update_status`, store unchanged; and every failed MiniMax result that *does*
carry a generation id (hence gets a job created and tracked) is exactly the
`"No audio URL in response"` failure — submission failures, polling
failures and `"No generation ID in response"` all yield results without a
generation id. -/
theorem no_generation_id_no_tracking
    (provider prompt : String) (r : GenerationResult) (st : List Job)
    (h : truthyStr r.generationId = false)
    (envM : MiniMaxEnv) (opM : Option String)
    (rM : GenerationResult) (wM : List (String × List Nat))
    (hM : minimaxGenerate envM opM = Except.ok (rM, wM)) :
    trackingOps provider prompt r = [] ∧
    applyOps st (trackingOps provider prompt r) = Except.ok st ∧
    (rM.success = false → truthyStr rM.generationId = true →
      rM.error = some "No audio URL in response") := by
  refine ⟨?_, ?_, ?_⟩
  · simp [trackingOps, h]
  · simp [trackingOps, h, applyOps]
  · intro hf ht
    rcases minimaxGenerate_cases envM opM with ⟨gid, d, hg, hq⟩ | hq | ⟨gid, hg, hq⟩ | ⟨e, hg, hq⟩ <;>
      (rw [hM] at hq; injection hq with hq1;
       rw [show rM = _ from congrArg Prod.fst hq1] at hf ht ⊢)
    · simp at hf
    · simp [truthyStr] at ht
    · simp [truthyStr] at ht

/-- Witness for `no_generation_id_no_tracking`: a failed result without a
generation id mutates nothing on the empty store, and a concrete MiniMax run
whose only failure is the missing audio URL carries its generation id. -/
theorem no_generation_id_no_tracking_witness :
    trackingOps "minimax" "lofi beat"
      { success := false, provider := "minimax", contentType := "music",
        error := some "boom" } = [] ∧
    applyOps [] (trackingOps "minimax" "lofi beat"
      { success := false, provider := "minimax", contentType := "music",
        error := some "boom" }) = Except.ok [] ∧
    ((⟨false, "minimax", "music", none, none, some "gen-1",
        some "No audio URL in response"⟩ : GenerationResult).success = false →
      truthyStr (⟨false, "minimax", "music", none, none, some "gen-1",
        some "No audio URL in response"⟩ : GenerationResult).generationId = true →
      (⟨false, "minimax", "music", none, none, some "gen-1",
        some "No audio URL in response"⟩ : GenerationResult).error =
        some "No audio URL in response") :=
  no_generation_id_no_tracking "minimax" "lofi beat"
    { success := false, provider := "minimax", contentType := "music",
      error := some "boom" } [] rfl
    { submit := Except.ok { id := some "gen-1" }, waitForCompletion := Except.ok [],
      download := Except.ok [], write := Except.ok (), timestamp := "t" } none
    ⟨false, "minimax", "music", none, none, some "gen-1",
      some "No audio URL in response"⟩ [] rfl

end AiContent
